import Mathlib

/-!
Shallow embedding of the DoorPI ring/open coordination core (src/doorpi.py):
the access-key validation engine (`Application.valid_apikey`), the config
accessor (`Application.config`), the ring/open coordinator
(`DoorSocketHandler.handle_ring` / `handle_open` / websocket open messages),
and the countdown timer (`TimeoutThread`).

Modelling conventions:
  - Machine times (Python floats from `time.time()`) are rationals.
  - Python exceptions escaping a function are `Except.error`; the Python
    `while True` busy-wait in `handle_ring` is given explicit fuel, and a
    `none` result for every fuel value models non-termination.
  - File and network side effects (GPIO pulses, websocket broadcasts, chat
    notifications, sleeps) are recorded as an `Event` trace; the
    `usedkeys.json` store is threaded as an explicit association list.
  - Random secret generation is a parameter (`fresh`): the caller supplies
    the string the two random characters and the timestamp would produce.
-/

/-- A calendar date as produced by `datetime.datetime.strptime(s, "%d.%m.%Y").date()`. -/
structure Date where
  year : Nat
  month : Nat
  day : Nat
deriving DecidableEq, Repr

/-- Python `date` ordering: lexicographic on (year, month, day). -/
def Date.ble (a b : Date) : Bool :=
  a.year < b.year ||
    (a.year == b.year &&
      (a.month < b.month || (a.month == b.month && a.day ≤ b.day)))

/-- Splits a character list on the dot separator of the "%d.%m.%Y" format. -/
def splitOnDot : List Char → List (List Char)
  | [] => [[]]
  | c :: cs =>
    if c = '.' then [] :: splitOnDot cs
    else
      match splitOnDot cs with
      | [] => [[c]]
      | g :: gs => (c :: g) :: gs

/-- Reads a decimal digit group with an accumulator; `none` on a non-digit. -/
def digitsAcc : List Char → Nat → Option Nat
  | [], acc => some acc
  | c :: cs, acc =>
    if c.isDigit then digitsAcc cs (acc * 10 + (c.toNat - 48)) else none

/-- A nonempty all-digit character group as a number. -/
def digitsToNat? : List Char → Option Nat
  | [] => none
  | cs => digitsAcc cs 0

/-- Model of `datetime.datetime.strptime(s, "%d.%m.%Y")`: three dot-separated
digit groups, day 1..31, month 1..12, year ≥ 1; `none` models the
`ValueError` that strptime raises on malformed input. -/
def strptime_dmY (s : String) : Option Date :=
  match splitOnDot s.toList with
  | [d, m, y] =>
    match digitsToNat? d, digitsToNat? m, digitsToNat? y with
    | some dd, some mm, some yy =>
      if 1 ≤ dd ∧ dd ≤ 31 ∧ 1 ≤ mm ∧ mm ≤ 12 ∧ 1 ≤ yy then
        some ⟨yy, mm, dd⟩
      else none
    | _, _, _ => none
  | _ => none

/-- One entry of `apikeys.json`: its "type" and its "from"/"till" date strings
(the strings are read only for kinds "limited" and "once"). -/
structure ApiKeyEntry where
  type : String
  fromDate : String
  tillDate : String
deriving DecidableEq, Repr

/-- The current-time facts `valid_apikey` reads: `datetime.datetime.today()`'s
weekday (Python convention, Monday = 0 .. Sunday = 6), hour and date, and
the `"%s" % time.time()` string recorded into `usedkeys.json`. -/
structure Now where
  weekday : Nat
  hour : Nat
  today : Date
  timeStr : String
deriving DecidableEq, Repr

/-- `Application.valid_apikey` (doorpi.py lines 100-157), with the
`usedkeys.json` contents threaded as `used` and returned updated.
`Except.error` models an exception (the uncaught `ValueError` from
`strptime` on a malformed stored date) escaping the function; the
comparison `strptime(from) <= today <= strptime(till)` short-circuits as
in Python, so `till` is only parsed when `strptime(from) <= today`. -/
def Application.valid_apikey (apikeys : List (String × ApiKeyEntry))
    (used : List (String × String)) (now : Now) (apikey : String) :
    Except String (Bool × List (String × String)) :=
  match apikeys.lookup apikey with
  | none => Except.ok (false, used)
  | some entry =>
    if entry.type = "master" then Except.ok (true, used)
    else if now.weekday > 4 then Except.ok (false, used)
    else if now.hour < 7 ∨ now.hour > 18 then Except.ok (false, used)
    else if entry.type = "restricted" then Except.ok (true, used)
    else
      match strptime_dmY entry.fromDate with
      | none => Except.error "ValueError"
      | some dFrom =>
        if dFrom.ble now.today then
          match strptime_dmY entry.tillDate with
          | none => Except.error "ValueError"
          | some dTill =>
            if now.today.ble dTill then
              if entry.type = "limited" then Except.ok (true, used)
              else if entry.type = "once" then
                if (used.lookup apikey).isSome then Except.ok (false, used)
                else Except.ok (true, (apikey, now.timeStr) :: used)
              else Except.ok (false, used)
            else Except.ok (false, used)
        else Except.ok (false, used)

/-- `Application.config` (doorpi.py lines 160-173): `_config[key]`, returning
the whole config on `KeyError`. `key = none` models the `key=None` default
(never a dict key, so it also raises `KeyError`). `Sum.inl` is a single
value, `Sum.inr` the whole mapping. -/
def Application.config (c : List (String × String)) (key : Option String) :
    String ⊕ List (String × String) :=
  match key with
  | none => Sum.inr c
  | some k =>
    match c.lookup k with
    | some v => Sum.inl v
    | none => Sum.inr c

/-- `TimeoutThread` (doorpi.py lines 502-535): `timeout` and `finish` in whole
seconds, `wait` the stop flag. Construction is
`finish := int(time.time()) + timeout`. -/
structure TimeoutThread where
  timeout : Int
  finish : Int
  wait : Bool
deriving DecidableEq, Repr

/-- `TimeoutThread.extend` (lines 525-529): adds the thread's stored timeout
to `finish`, compounding rather than resetting. -/
def TimeoutThread.extend (t : TimeoutThread) : TimeoutThread :=
  { t with finish := t.finish + t.timeout }

/-- `TimeoutThread.stop` (lines 531-535): clears the wait flag. -/
def TimeoutThread.stop (t : TimeoutThread) : TimeoutThread :=
  { t with wait := false }

/-- The coordinator's mutable state: the runtime config fields
`_door.last.open` / `_door.last.ring` (as parsed floats; `none` models the
initial empty string, which `float()` rejects with `ValueError`), the
popped-on-read `_door.open.secret` entry, and the class-level
`DoorSocketHandler.timeout_thread` reference. -/
structure DoorState where
  lastOpen : Option ℚ
  lastRing : Option ℚ
  openSecret : Option String
  timeout_thread : Option TimeoutThread
deriving DecidableEq, Repr

/-- Websocket broadcast payloads sent through `send_update`. -/
inductive Msg where
  | ringMsg (secret : String) (timestamp : ℚ)
  | openMsg (timestamp : ℚ)
  | timeoutMsg
deriving DecidableEq, Repr

/-- Observable side effects, in program order: websocket broadcasts, chat
notifications (the ring one carries the secret-bearing open link), sleeps,
and GPIO edges of the door actuator. -/
inductive Event where
  | broadcast (m : Msg)
  | slackRing (secret : String)
  | slackOpened
  | sleepFor (d : ℚ)
  | doorOn
  | doorOff
deriving DecidableEq, Repr

/-- The debounce test of `handle_ring` (lines 412-419):
`timestamp - float(last_open) < 1.0`, where `float` of the initial empty
string raises `ValueError` and the ring proceeds. -/
def ringDebounced (now : ℚ) (s : DoorState) : Bool :=
  match s.lastOpen with
  | some lo => decide (now - lo < 1)
  | none => false

/-- The `while True` poll for `_door.open.secret` (lines 433-437), spun with
explicit fuel: one iteration per unit of fuel, `none` when the loop has not
exited within the fuel. The loop body never writes the config, so an absent
secret stays absent. -/
def secret_poll : Nat → Option String → Option String
  | 0, _ => none
  | _ + 1, some s => some s
  | fuel + 1, none => secret_poll fuel none

/-- `DoorSocketHandler.handle_ring` (lines 405-452). `slackConfigured` is
`Application.has_valid_slack_config`, `door_open_timeout` the configured
`door.open.timeout` as an int, `fresh` the randomly generated secret, `now`
the `time.time()` read at entry. Returns the new state and the event trace,
or `none` when the call does not terminate within `fuel` iterations of the
secret poll. -/
def DoorSocketHandler.handle_ring (fuel : Nat) (slackConfigured : Bool)
    (door_open_timeout : Int) (fresh : String) (now : ℚ) (s : DoorState) :
    Option (DoorState × List Event) :=
  if ringDebounced now s then some (s, [])
  else
    let s1 : DoorState := { s with lastRing := some now }
    let finishEvents : String → List Event := fun secret =>
      Event.broadcast (Msg.ringMsg secret now) ::
        (if slackConfigured then [Event.slackRing secret, Event.sleepFor 60]
         else [])
    match s1.timeout_thread with
    | none =>
      let s2 : DoorState :=
        { s1 with
          openSecret := some fresh,
          timeout_thread :=
            some ⟨door_open_timeout, ⌊now⌋ + door_open_timeout, true⟩ }
      some (s2, finishEvents fresh)
    | some tt =>
      match secret_poll fuel s1.openSecret with
      | none => none
      | some secret =>
        some ({ s1 with timeout_thread := some tt.extend },
              finishEvents secret)

/-- `DoorSocketHandler.handle_open` (lines 454-490): no-op when no timer
exists; otherwise stop and drop the timer, record `_door.last.open = now`,
assert the actuator, notify the chat relay if configured, hold 0.5 seconds,
deassert. Note it does not touch `_door.open.secret`: callers pop it. -/
def DoorSocketHandler.handle_open (slackConfigured : Bool) (now : ℚ)
    (s : DoorState) : DoorState × List Event :=
  match s.timeout_thread with
  | none => (s, [])
  | some _ =>
    ({ s with timeout_thread := none, lastOpen := some now },
     Event.doorOn ::
       (if slackConfigured then [Event.slackOpened] else []) ++
         [Event.sleepFor (1 / 2), Event.doorOff])

/-- The `action == "open"` branch of `DoorSocketHandler.on_message`
(lines 391-400). `presented = none` models a payload without a "secret" key
(the `KeyError` is caught and the message ignored). The comparison
`payload['secret'] == Application.config().pop('_door.open.secret', None)`
removes the stored secret from the config whether or not it matches; on a
match the open broadcast precedes `handle_open`. -/
def DoorSocketHandler.on_message_open (slackConfigured : Bool)
    (presented : Option String) (now : ℚ) (s : DoorState) :
    DoorState × List Event :=
  match presented with
  | none => (s, [])
  | some p =>
    let popped := s.openSecret
    let s1 : DoorState := { s with openSecret := none }
    if popped = some p then
      let r := DoorSocketHandler.handle_open slackConfigured now s1
      (r.1, Event.broadcast (Msg.openMsg now) :: r.2)
    else (s1, [])

/-- `ApiHandler.get` (doorpi.py lines 236-264): on an authorized key, record
`_door.last.open = now`, sleep 0.5, pulse the door (on, 0.5, off); an
unauthorized key only yields the 401 response. The timer, the stored
secret, the observers and the chat relay are never touched on this path. -/
def ApiHandler.get (apikeys : List (String × ApiKeyEntry))
    (used : List (String × String)) (nowK : Now) (apikey : String) (now : ℚ)
    (s : DoorState) :
    Except String (DoorState × List (String × String) × List Event) :=
  match Application.valid_apikey apikeys used nowK apikey with
  | Except.error e => Except.error e
  | Except.ok (b, used2) =>
    if b then
      Except.ok ({ s with lastOpen := some now }, used2,
        [Event.sleepFor (1 / 2), Event.doorOn, Event.sleepFor (1 / 2),
         Event.doorOff])
    else Except.ok (s, used2, [])

/-- Natural expiry of `TimeoutThread.run` (lines 515-523): once
`int(time.time()) >= finish` with `wait` still set, the loop exits and the
thread sends exactly one timeout broadcast. The thread writes nothing else:
`DoorSocketHandler.timeout_thread` stays set and `_door.open.secret` stays
in the config. `none` when the timer has not expired (or was stopped). -/
def TimeoutThread.run_expiry (nowSec : Int) (s : DoorState) :
    Option (DoorState × List Event) :=
  match s.timeout_thread with
  | none => none
  | some tt =>
    if tt.wait ∧ tt.finish ≤ nowSec then
      some (s, [Event.broadcast Msg.timeoutMsg])
    else none

deriving instance DecidableEq for Except

/-- The secret poll cannot exit when the config holds no secret: no amount of
fuel produces a result, so the source's `while True` loop never terminates. -/
theorem secret_poll_none (fuel : Nat) : secret_poll fuel none = none := by
  induction fuel with
  | zero => rfl
  | succ n ih => simpa [secret_poll] using ih

/-- Claim C1: contrary to the claim, a websocket open with a wrong secret while
Armed does not leave the window unchanged: the `pop` in the comparison removes
the stored secret (though no actuation or broadcast happens), so the
subsequent open with the formerly correct secret "AB123" is also rejected. -/
theorem doorpi_C1_wrong_secret_destroys_window :
    DoorSocketHandler.on_message_open false (some "WRONG") 10
        ⟨none, some 5, some "AB123", some ⟨60, 65, true⟩⟩ =
      (⟨none, some 5, none, some ⟨60, 65, true⟩⟩, []) ∧
    DoorSocketHandler.on_message_open false (some "AB123") 11
        ⟨none, some 5, none, some ⟨60, 65, true⟩⟩ =
      (⟨none, some 5, none, some ⟨60, 65, true⟩⟩, []) :=
  ⟨by decide, by decide⟩

/-- Claim C2: natural expiry does send exactly the one timeout broadcast, but
contrary to the claim the coordinator does not return to Idle: the state is
untouched (secret still stored, timer reference still set), so a subsequent
open presenting the old secret "AB123" at second 61 succeeds and pulses the
actuator. -/
theorem doorpi_C2_expiry_leaves_window_open :
    TimeoutThread.run_expiry 60 ⟨none, some 0, some "AB123", some ⟨60, 60, true⟩⟩ =
      some (⟨none, some 0, some "AB123", some ⟨60, 60, true⟩⟩,
        [Event.broadcast Msg.timeoutMsg]) ∧
    DoorSocketHandler.on_message_open false (some "AB123") 61
        ⟨none, some 0, some "AB123", some ⟨60, 60, true⟩⟩ =
      (⟨some 61, some 0, none, none⟩,
        [Event.broadcast (Msg.openMsg 61), Event.doorOn,
         Event.sleepFor (1 / 2), Event.doorOff]) :=
  ⟨by decide, rfl⟩

/-- Claim C3 (amended): an API-key-authorized open records the last-open time
and pulses the actuator (on, 0.5 hold, off), but performs none of the rest of
the handleOpen acceptance sequence: the timer and the stored secret are left
untouched, and the event trace holds no broadcast and no chat notification. -/
theorem doorpi_C3_api_open_pulse_only (apikeys : List (String × ApiKeyEntry))
    (used used2 : List (String × String)) (nowK : Now) (apikey : String) (now : ℚ)
    (s : DoorState)
    (hv : Application.valid_apikey apikeys used nowK apikey = Except.ok (true, used2)) :
    ApiHandler.get apikeys used nowK apikey now s =
      Except.ok ({ s with lastOpen := some now }, used2,
        [Event.sleepFor (1 / 2), Event.doorOn, Event.sleepFor (1 / 2), Event.doorOff]) ∧
    ({ s with lastOpen := some now } : DoorState).timeout_thread = s.timeout_thread ∧
    ({ s with lastOpen := some now } : DoorState).openSecret = s.openSecret := by
  refine ⟨?_, rfl, rfl⟩
  simp [ApiHandler.get, hv]

/-- Claim C3 witness: the amended statement at a concrete master key and the
idle state. -/
theorem doorpi_C3_witness :
    ApiHandler.get [("M2", ⟨"master", "", ""⟩)] [] ⟨0, 12, ⟨2025, 6, 16⟩, "t"⟩ "M2" 50
        ⟨none, none, none, none⟩ =
      Except.ok (⟨some 50, none, none, none⟩, [],
        [Event.sleepFor (1 / 2), Event.doorOn, Event.sleepFor (1 / 2), Event.doorOff]) :=
  (doorpi_C3_api_open_pulse_only _ _ _ _ _ _ _ (by decide)).1

/-- Claim C3 counterexample: an authorized API open while a window is Armed
(timer running, secret "S3" stored) leaves the timer running and the secret
stored, and its event trace holds no broadcast at all — refuting the claimed
full acceptance sequence (stop timer, go Idle, clear window, broadcast). -/
theorem doorpi_C3_counterexample :
    ApiHandler.get [("M", ⟨"master", "", ""⟩)] [] ⟨5, 23, ⟨2025, 1, 1⟩, "t"⟩ "M" 100
        ⟨none, some 0, some "S3", some ⟨60, 160, true⟩⟩ =
      Except.ok (⟨some 100, some 0, some "S3", some ⟨60, 160, true⟩⟩, [],
        [Event.sleepFor (1 / 2), Event.doorOn, Event.sleepFor (1 / 2), Event.doorOff]) ∧
    (⟨some 100, some 0, some "S3", some ⟨60, 160, true⟩⟩ : DoorState).timeout_thread ≠
      none ∧
    (⟨some 100, some 0, some "S3", some ⟨60, 160, true⟩⟩ : DoorState).openSecret =
      some "S3" ∧
    ∀ m : Msg, Event.broadcast m ∉
      [Event.sleepFor (1 / 2), Event.doorOn, Event.sleepFor (1 / 2), Event.doorOff] :=
  ⟨rfl, by simp, rfl, by intro m; simp⟩

/-- Claim C4: for a "limited" key whose stored from-date is unparseable, the
validator does not return not-authorized as the claim states: the ValueError
from strptime escapes `valid_apikey` (modelled as `Except.error`). -/
theorem doorpi_C4_malformed_date_raises :
    Application.valid_apikey [("K4", ⟨"limited", "garbage", "31.12.2099"⟩)] []
      ⟨0, 12, ⟨2025, 6, 16⟩, "t"⟩ "K4" = Except.error "ValueError" := by decide

/-- Claim C5: a "once" key whose first call succeeds (business-hours gate
passes, dates parse and contain today, key not yet used) records the key with
the current time string into the used set before returning true, and every
subsequent call for that key returns false for every later time, whatever its
weekday, hour and date. -/
theorem doorpi_C5_once_key_consumed (apikeys : List (String × ApiKeyEntry))
    (used : List (String × String)) (now : Now) (k : String) (entry : ApiKeyEntry)
    (dFrom dTill : Date)
    (hk : apikeys.lookup k = some entry)
    (ht : entry.type = "once")
    (hwd : now.weekday ≤ 4)
    (hh1 : 7 ≤ now.hour)
    (hh2 : now.hour ≤ 18)
    (hdf : strptime_dmY entry.fromDate = some dFrom)
    (hdt : strptime_dmY entry.tillDate = some dTill)
    (hr1 : dFrom.ble now.today = true)
    (hr2 : now.today.ble dTill = true)
    (hnew : used.lookup k = none) :
    Application.valid_apikey apikeys used now k =
      Except.ok (true, (k, now.timeStr) :: used) ∧
    ∀ now2 : Now, Application.valid_apikey apikeys ((k, now.timeStr) :: used) now2 k =
      Except.ok (false, (k, now.timeStr) :: used) := by
  have hm : ¬ entry.type = "master" := by rw [ht]; decide
  have hrs : ¬ entry.type = "restricted" := by rw [ht]; decide
  have hl : ¬ entry.type = "limited" := by rw [ht]; decide
  have hw : ¬ now.weekday > 4 := by omega
  have hh : ¬ (now.hour < 7 ∨ now.hour > 18) := by omega
  constructor
  · simp [Application.valid_apikey, hk, hm, hrs, hl, ht, hdf, hdt, hr1, hr2, hnew, hw, hh]
  · intro now2
    by_cases h1 : now2.weekday > 4
    · simp [Application.valid_apikey, hk, hm, h1]
    · by_cases h2 : now2.hour < 7 ∨ now2.hour > 18
      · simp [Application.valid_apikey, hk, hm, h1, h2]
      · by_cases h3 : dFrom.ble now2.today = true
        · by_cases h4 : now2.today.ble dTill = true
          · simp [Application.valid_apikey, hk, hm, hrs, hl, ht, hdf, hdt, h1, h2, h3,
              h4, List.lookup]
          · simp [Application.valid_apikey, hk, hm, hrs, hl, ht, hdf, hdt, h1, h2, h3, h4]
        · simp [Application.valid_apikey, hk, hm, hrs, hl, ht, hdf, h1, h2, h3]

/-- Claim C5 witness: a concrete "once" key consumed on a Monday noon inside
its date range, then rejected at every later time. -/
theorem doorpi_C5_witness :
    Application.valid_apikey [("O1", ⟨"once", "01.01.2020", "31.12.2099"⟩)] []
      ⟨0, 12, ⟨2025, 6, 16⟩, "1000.5"⟩ "O1" = Except.ok (true, [("O1", "1000.5")]) ∧
    ∀ now2 : Now, Application.valid_apikey [("O1", ⟨"once", "01.01.2020", "31.12.2099"⟩)]
      [("O1", "1000.5")] now2 "O1" = Except.ok (false, [("O1", "1000.5")]) :=
  doorpi_C5_once_key_consumed [("O1", ⟨"once", "01.01.2020", "31.12.2099"⟩)] []
    ⟨0, 12, ⟨2025, 6, 16⟩, "1000.5"⟩ "O1" ⟨"once", "01.01.2020", "31.12.2099"⟩
    ⟨2020, 1, 1⟩ ⟨2099, 12, 31⟩ (by decide) rfl
    (by decide) (by decide) (by decide) (by decide) (by decide) (by decide) (by decide)
    (by decide)

/-- Claim C6: contrary to the claim, handleRing does not terminate from the
reachable state where a timer exists but the stored secret is absent (for
example after a mismatched open popped it): whatever fuel the secret poll is
given, the call never finishes. -/
theorem doorpi_C6_armed_without_secret_diverges (fuel : Nat) :
    DoorSocketHandler.handle_ring fuel false 60 "ZZ99" 100
      ⟨none, none, none, some ⟨60, 160, true⟩⟩ = none := by
  simp [DoorSocketHandler.handle_ring, ringDebounced, secret_poll_none]

/-- Claim C7: a known master key is authorized at any weekday and hour, and a
known restricted, limited or once key is never authorized on Saturday or
Sunday (Python weekday 5 or 6) or when the hour lies outside 7..18. -/
theorem doorpi_C7_business_hours_gate (apikeys : List (String × ApiKeyEntry))
    (used : List (String × String)) (now : Now) (k : String) (entry : ApiKeyEntry)
    (hk : apikeys.lookup k = some entry) :
    (entry.type = "master" →
      Application.valid_apikey apikeys used now k = Except.ok (true, used)) ∧
    ((entry.type = "restricted" ∨ entry.type = "limited" ∨ entry.type = "once") →
      (now.weekday = 5 ∨ now.weekday = 6 ∨ now.hour < 7 ∨ 18 < now.hour) →
      Application.valid_apikey apikeys used now k = Except.ok (false, used)) := by
  constructor
  · intro hm
    simp [Application.valid_apikey, hk, hm]
  · intro htype hgate
    have hm : ¬ entry.type = "master" := by
      rcases htype with h | h | h <;> rw [h] <;> decide
    by_cases hw : now.weekday > 4
    · simp [Application.valid_apikey, hk, hm, hw]
    · have hh : now.hour < 7 ∨ now.hour > 18 := by
        rcases hgate with h | h | h | h
        · omega
        · omega
        · exact Or.inl h
        · exact Or.inr h
      simp [Application.valid_apikey, hk, hm, hw, hh]

/-- Claim C7 witness: a restricted key presented on a Saturday noon is
rejected. -/
theorem doorpi_C7_witness :
    Application.valid_apikey [("R", ⟨"restricted", "", ""⟩)] []
      ⟨5, 12, ⟨2025, 6, 14⟩, "t"⟩ "R" = Except.ok (false, []) :=
  (doorpi_C7_business_hours_gate [("R", ⟨"restricted", "", ""⟩)] []
      ⟨5, 12, ⟨2025, 6, 14⟩, "t"⟩ "R" ⟨"restricted", "", ""⟩ (by decide)).2
    (Or.inl rfl) (Or.inl rfl)

/-- Claim C8: a ring while Armed (timer present, secret stored, outside the
open debounce, positive configured timeout) reuses the stored secret — the
ring broadcast carries it and it stays stored — and extends the timer by its
full stored timeout, so the remaining time strictly increases. -/
theorem doorpi_C8_ring_while_armed (fuel : Nat) (slackConfigured : Bool)
    (door_open_timeout : Int) (fresh : String) (now : ℚ) (s : DoorState)
    (tt : TimeoutThread) (sec : String)
    (hth : s.timeout_thread = some tt)
    (hsec : s.openSecret = some sec)
    (hdeb : ringDebounced now s = false)
    (hpos : 0 < tt.timeout)
    (hfuel : 0 < fuel) :
    DoorSocketHandler.handle_ring fuel slackConfigured door_open_timeout fresh now s =
      some ({ s with lastRing := some now, timeout_thread := some tt.extend },
        Event.broadcast (Msg.ringMsg sec now) ::
          (if slackConfigured then [Event.slackRing sec, Event.sleepFor 60] else [])) ∧
    ({ s with lastRing := some now, timeout_thread := some tt.extend } :
      DoorState).openSecret = some sec ∧
    tt.finish - ⌊now⌋ < tt.extend.finish - ⌊now⌋ := by
  obtain ⟨n, rfl⟩ : ∃ n, fuel = n + 1 := ⟨fuel - 1, by omega⟩
  refine ⟨?_, by simpa using hsec, ?_⟩
  · simp [DoorSocketHandler.handle_ring, hdeb, hth, hsec, secret_poll]
  · simp only [TimeoutThread.extend]
    omega

/-- Claim C8 witness: a second ring at second 100 on a window armed with
secret "AB123" and finish 160 reuses the secret and moves finish to 220. -/
theorem doorpi_C8_witness :
    DoorSocketHandler.handle_ring 1 false 60 "ZZ99" 100
        ⟨none, some 50, some "AB123", some ⟨60, 160, true⟩⟩ =
      some (⟨none, some 100, some "AB123", some ⟨60, 220, true⟩⟩,
        [Event.broadcast (Msg.ringMsg "AB123" 100)]) :=
  (doorpi_C8_ring_while_armed 1 false 60 "ZZ99" 100
      ⟨none, some 50, some "AB123", some ⟨60, 160, true⟩⟩ ⟨60, 160, true⟩ "AB123"
      rfl rfl rfl (by decide) (by decide)).1

/-- Claim C9: a ring arriving less than one second after a recorded open is
ignored entirely: the state is returned unchanged (no last-ring update, no
secret, no timer change) and no event is emitted. -/
theorem doorpi_C9_debounced_ring_is_noop (fuel : Nat) (slackConfigured : Bool)
    (door_open_timeout : Int) (fresh : String) (now : ℚ) (s : DoorState) (lo : ℚ)
    (hlo : s.lastOpen = some lo) (hnear : now - lo < 1) :
    DoorSocketHandler.handle_ring fuel slackConfigured door_open_timeout fresh now s =
      some (s, []) := by
  have hdeb : ringDebounced now s = true := by simp [ringDebounced, hlo, hnear]
  simp [DoorSocketHandler.handle_ring, hdeb]

/-- Claim C9 witness: a ring at the very second of the last open changes
nothing and emits nothing. -/
theorem doorpi_C9_witness :
    DoorSocketHandler.handle_ring 3 true 60 "NEW" 100 ⟨some 100, some 50, none, none⟩ =
      some (⟨some 100, some 50, none, none⟩, []) :=
  doorpi_C9_debounced_ring_is_noop 3 true 60 "NEW" 100 _ 100 rfl (by norm_num)

/-- Claim C10: looking up a key absent from the configuration mapping returns
the whole mapping (the dict), not a value and not an error. -/
theorem doorpi_C10_missing_key_whole_config (c : List (String × String)) (k : String)
    (h : c.lookup k = none) : Application.config c (some k) = Sum.inr c := by
  simp [Application.config, h]

/-- Claim C10 witness: reading the unset key "slack.webhook" yields the whole
configuration. -/
theorem doorpi_C10_witness :
    Application.config [("door.name", "Door")] (some "slack.webhook") =
      Sum.inr [("door.name", "Door")] :=
  doorpi_C10_missing_key_whole_config _ _ (by decide)
